import Mathlib

/-!
Verification development for `scripts/create_diagrams.py` of the mfe-demo
repository: a batch utility that builds four fixed diagram descriptions
(nodes grouped in nested clusters, directed edges) and hands each to a
rendering backend, writing one `.png` file per diagram into a fixed output
directory derived from the script's own location.

The embedding is shallow: paths are lists of components, each
diagram-building function becomes a Lean function producing a static graph
description, and the `__main__` block becomes a state machine over a model
of the output directory, parameterised by a rendering oracle so that
failure propagation can be stated.
-/

namespace MfeDiagrams

/-- Icon categories imported by the script from the diagrams library
(`CloudFront`, `S3`, `Cognito`, `Client`, `Users`, `React`, `TypeScript`). -/
inductive Icon where
  | cloudFront
  | s3
  | cognito
  | client
  | users
  | react
  | typeScript
deriving DecidableEq, Repr

/-- A node of a diagram: its icon class, its display label, and the stack of
named clusters it is declared inside (outermost first). -/
structure Node where
  icon : Icon
  label : String
  cluster : List String
deriving DecidableEq, Repr

/-- A diagram description as assembled by one `with Diagram(...)` block:
title, output filename (a path, components listed root-first, without the
`.png` extension that the backend appends), layout direction, graph
attributes, the declared nodes in declaration order, and the directed edges.
Labels are unique within each diagram of this script, so an edge is
recorded as the (source label, target label) pair. -/
structure DiagramSpec where
  title : String
  filename : List String
  direction : String
  graph_attr : List (String × String)
  nodes : List Node
  edges : List (String × String)
deriving DecidableEq, Repr

/-- `os.path.dirname` on an absolute path modelled as a component list. -/
def dirname (p : List String) : List String := p.dropLast

/-- `SCRIPT_DIR = os.path.dirname(os.path.abspath(__file__))`, as a function
of the script file's absolute path. -/
def scriptDirOf (scriptAbs : List String) : List String := dirname scriptAbs

/-- `REPO_ROOT = os.path.dirname(SCRIPT_DIR)`. -/
def repoRootOf (scriptAbs : List String) : List String :=
  dirname (scriptDirOf scriptAbs)

/-- `OUTPUT_DIR = os.path.join(REPO_ROOT, "docs", "diagrams")`. -/
def outputDirOf (scriptAbs : List String) : List String :=
  repoRootOf scriptAbs ++ ["docs", "diagrams"]

/-- The `graph_attr` dictionary repeated verbatim in all four calls. -/
def commonGraphAttr : List (String × String) :=
  [("fontsize", "20"), ("fontname", "Arial"), ("bgcolor", "white"), ("pad", "0.5")]

/-- `create_mfe_architecture_diagram()`: the high-level MFE architecture
diagram, as a function of the script's absolute path (the Python function
takes no parameter and reads the module-level `OUTPUT_DIR`). -/
def create_mfe_architecture_diagram (scriptAbs : List String) : DiagramSpec :=
  { title := "MFE Demo Architecture"
    filename := outputDirOf scriptAbs ++ ["mfe-architecture"]
    direction := "TB"
    graph_attr := commonGraphAttr
    nodes :=
      [ ⟨.users, "End Users", []⟩,
        ⟨.cloudFront, "CloudFront CDN", ["AWS Cloud"]⟩,
        ⟨.cognito, "Cognito Auth", ["AWS Cloud"]⟩,
        ⟨.react, "Container\n(Port 4000)\n- Header/Navbar\n- Auth Context\n- Router",
          ["AWS Cloud", "S3 Bucket (app.mfeworld.com)", "Container Application"]⟩,
        ⟨.react, "Home MFE\n(Port 3001)",
          ["AWS Cloud", "S3 Bucket (app.mfeworld.com)", "Micro Frontends"]⟩,
        ⟨.react, "Preferences MFE\n(Port 3002)",
          ["AWS Cloud", "S3 Bucket (app.mfeworld.com)", "Micro Frontends"]⟩,
        ⟨.react, "Account MFE\n(Port 3003)",
          ["AWS Cloud", "S3 Bucket (app.mfeworld.com)", "Micro Frontends"]⟩,
        ⟨.react, "Admin MFE\n(Port 3004)",
          ["AWS Cloud", "S3 Bucket (app.mfeworld.com)", "Micro Frontends"]⟩ ]
    edges :=
      [ ("End Users", "CloudFront CDN"),
        ("CloudFront CDN",
          "Container\n(Port 4000)\n- Header/Navbar\n- Auth Context\n- Router"),
        ("Container\n(Port 4000)\n- Header/Navbar\n- Auth Context\n- Router",
          "Cognito Auth"),
        ("Container\n(Port 4000)\n- Header/Navbar\n- Auth Context\n- Router",
          "Home MFE\n(Port 3001)"),
        ("Container\n(Port 4000)\n- Header/Navbar\n- Auth Context\n- Router",
          "Preferences MFE\n(Port 3002)"),
        ("Container\n(Port 4000)\n- Header/Navbar\n- Auth Context\n- Router",
          "Account MFE\n(Port 3003)"),
        ("Container\n(Port 4000)\n- Header/Navbar\n- Auth Context\n- Router",
          "Admin MFE\n(Port 3004)") ] }

/-- `create_deployment_architecture_diagram()`: the AWS deployment
architecture diagram. -/
def create_deployment_architecture_diagram (scriptAbs : List String) : DiagramSpec :=
  { title := "AWS Deployment Architecture"
    filename := outputDirOf scriptAbs ++ ["deployment-architecture"]
    direction := "LR"
    graph_attr := commonGraphAttr
    nodes :=
      [ ⟨.client, "Browser", ["Client"]⟩,
        ⟨.cloudFront, "CloudFront\nCDN", ["AWS Cloud"]⟩,
        ⟨.cognito, "Cognito\nUser Pool", ["AWS Cloud", "Authentication"]⟩,
        ⟨.s3, "S3 Bucket", ["AWS Cloud", "Static Hosting"]⟩,
        ⟨.s3, "container/", ["AWS Cloud", "Static Hosting", "Application Folders"]⟩,
        ⟨.s3, "home/", ["AWS Cloud", "Static Hosting", "Application Folders"]⟩,
        ⟨.s3, "preferences/", ["AWS Cloud", "Static Hosting", "Application Folders"]⟩,
        ⟨.s3, "account/", ["AWS Cloud", "Static Hosting", "Application Folders"]⟩,
        ⟨.s3, "admin/", ["AWS Cloud", "Static Hosting", "Application Folders"]⟩ ]
    edges :=
      [ ("Browser", "CloudFront\nCDN"),
        ("CloudFront\nCDN", "S3 Bucket"),
        ("Browser", "Cognito\nUser Pool") ] }

/-- `create_component_architecture_diagram()`: the container-application
component architecture diagram. -/
def create_component_architecture_diagram (scriptAbs : List String) : DiagramSpec :=
  { title := "Container Application Components"
    filename := outputDirOf scriptAbs ++ ["component-architecture"]
    direction := "TB"
    graph_attr := commonGraphAttr
    nodes :=
      [ ⟨.typeScript, "mfeRegistry.ts",
          ["Container App (apps/container)", "Configuration Layer"]⟩,
        ⟨.typeScript, "routeMappings.ts",
          ["Container App (apps/container)", "Configuration Layer"]⟩,
        ⟨.typeScript, "theme.ts",
          ["Container App (apps/container)", "Configuration Layer"]⟩,
        ⟨.react, "AuthContext",
          ["Container App (apps/container)", "Context Providers"]⟩,
        ⟨.react, "DataContext",
          ["Container App (apps/container)", "Context Providers"]⟩,
        ⟨.react, "UserPreferencesContext",
          ["Container App (apps/container)", "Context Providers"]⟩,
        ⟨.react, "Header", ["Container App (apps/container)", "Core Components"]⟩,
        ⟨.react, "Navbar", ["Container App (apps/container)", "Core Components"]⟩,
        ⟨.react, "MFELoader", ["Container App (apps/container)", "Core Components"]⟩,
        ⟨.react, "ErrorBoundary",
          ["Container App (apps/container)", "Core Components"]⟩,
        ⟨.typeScript, "authService",
          ["Container App (apps/container)", "Services Layer"]⟩,
        ⟨.typeScript, "storageService",
          ["Container App (apps/container)", "Services Layer"]⟩,
        ⟨.typeScript, "eventBus",
          ["Container App (apps/container)", "Services Layer"]⟩,
        ⟨.typeScript, "packages/shared-hooks", ["Shared Packages"]⟩,
        ⟨.react, "Home MFE", ["Micro Frontends"]⟩,
        ⟨.react, "Preferences MFE", ["Micro Frontends"]⟩,
        ⟨.react, "Account MFE", ["Micro Frontends"]⟩,
        ⟨.react, "Admin MFE", ["Micro Frontends"]⟩ ]
    edges :=
      [ ("mfeRegistry.ts", "MFELoader"),
        ("AuthContext", "Header"),
        ("AuthContext", "Navbar"),
        ("MFELoader", "Home MFE"),
        ("MFELoader", "Preferences MFE"),
        ("MFELoader", "Account MFE"),
        ("MFELoader", "Admin MFE") ] }

/-- `create_data_flow_diagram()`: the data flow architecture diagram. -/
def create_data_flow_diagram (scriptAbs : List String) : DiagramSpec :=
  { title := "MFE Data Flow"
    filename := outputDirOf scriptAbs ++ ["data-flow"]
    direction := "LR"
    graph_attr := commonGraphAttr
    nodes :=
      [ ⟨.client, "Browser", ["User Interface"]⟩,
        ⟨.react, "React Router", ["Container Application", "Routing"]⟩,
        ⟨.react, "AuthContext", ["Container Application", "State Management"]⟩,
        ⟨.react, "DataContext", ["Container Application", "State Management"]⟩,
        ⟨.typeScript, "EventBus", ["Container Application", "Communication"]⟩,
        ⟨.typeScript, "LocalStorage", ["Container Application", "Communication"]⟩,
        ⟨.cognito, "AWS Cognito", ["Authentication"]⟩,
        ⟨.react, "MFEs\n(Home, Account,\nPreferences, Admin)", ["Micro Frontends"]⟩ ]
    edges :=
      [ ("Browser", "React Router"),
        ("React Router", "MFEs\n(Home, Account,\nPreferences, Admin)"),
        ("AuthContext", "AWS Cognito"),
        ("MFEs\n(Home, Account,\nPreferences, Admin)", "EventBus"),
        ("EventBus", "AuthContext") ] }

/-- The name of the image file a diagram's render writes: the last component
of its `filename` with the `.png` extension the backend appends. -/
def pngName (d : DiagramSpec) : String :=
  d.filename.getLastD "" ++ ".png"

/-- The full path of the image file a diagram's render writes. -/
def pngPath (d : DiagramSpec) : List String :=
  d.filename.dropLast ++ [pngName d]

/-- The four diagram-building operations in the order `__main__` invokes
them: architecture, deployment, component, data flow. -/
def diagramsInOrder (scriptAbs : List String) : List DiagramSpec :=
  [ create_mfe_architecture_diagram scriptAbs,
    create_deployment_architecture_diagram scriptAbs,
    create_component_architecture_diagram scriptAbs,
    create_data_flow_diagram scriptAbs ]

/-- The file paths a full successful run generates. -/
def generatedPaths (scriptAbs : List String) : List (List String) :=
  (diagramsInOrder scriptAbs).map pngPath

/-- Model of the output directory's state: whether the directory exists and
the names of the files it holds (in creation order, no duplicates added). -/
structure FS where
  dirExists : Bool
  files : List String
deriving DecidableEq, Repr

/-- An empty, not-yet-created output directory (clean checkout). -/
def cleanFS : FS := ⟨false, []⟩

/-- `os.makedirs(OUTPUT_DIR, exist_ok=existOk)`: creates the directory;
with `exist_ok=True` an already existing directory is not an error, with
`exist_ok=False` it raises `FileExistsError`. -/
def makedirs (existOk : Bool) (fs : FS) : FS × Except String Unit :=
  if fs.dirExists then
    (fs, if existOk then .ok () else .error "FileExistsError")
  else
    ({ fs with dirExists := true }, .ok ())

/-- Writing (or overwriting) a file of the given name: the directory's set
of names gains the name if absent and is unchanged if it is present. -/
def writeFile (fs : FS) (name : String) : FS :=
  if fs.files.contains name then fs else { fs with files := fs.files ++ [name] }

/-- Observable steps of a run, for stating ordering properties: the
directory creation and each attempted diagram render (by title). -/
inductive Event where
  | mkdirOutput
  | render (title : String)
deriving DecidableEq, Repr

/-- Whether an event is a render attempt. -/
def Event.isRender : Event → Bool
  | .mkdirOutput => false
  | .render _ => true

/-- A rendering oracle: what the external backend does on each diagram
(success, or an exception such as "graphviz not installed"). -/
def RenderOracle : Type := DiagramSpec → Except String Unit

/-- The oracle of a healthy environment: every render succeeds. -/
def okRender : RenderOracle := fun _ => .ok ()

/-- An oracle whose backend raises while rendering the second diagram. -/
def failDeployRender : RenderOracle := fun d =>
  if d.title == "AWS Deployment Architecture" then .error "graphviz missing"
  else .ok ()

/-- Sequentially render a list of diagrams: each successful render writes
the diagram's `.png` file; the first failure aborts, leaving the remaining
diagrams unattempted (an uncaught Python exception). Returns the final
directory state, the trace of attempted renders, and the outcome. -/
def runDiagrams (render : RenderOracle) (fs : FS) :
    List DiagramSpec → FS × List Event × Except String Unit
  | [] => (fs, [], .ok ())
  | d :: ds =>
    match render d with
    | .error e => (fs, [.render d.title], .error e)
    | .ok () =>
      let r := runDiagrams render (writeFile fs (pngName d)) ds
      (r.1, .render d.title :: r.2.1, r.2.2)

/-- Lexicographic comparison of character lists by code point, the order
Python's `sorted` uses on strings. -/
def lexLe : List Char → List Char → Bool
  | [], _ => true
  | _ :: _, [] => false
  | a :: as, b :: bs =>
    if a < b then true else if b < a then false else lexLe as bs

/-- Lexicographic order on strings (by code point), as used by `sorted`. -/
def strLe (a b : String) : Prop := lexLe a.data b.data = true

instance : DecidableRel strLe :=
  fun a b => inferInstanceAs (Decidable (lexLe a.data b.data = true))

/-- Python's `f.endswith(post)`: whether `post`'s characters are a suffix
of `f`'s. -/
def endsWithStr (post f : String) : Bool := post.data.isSuffixOf f.data

/-- The confirmation listing printed at the end of a successful run:
`for f in sorted(os.listdir(OUTPUT_DIR)): if f.endswith('.png'): print(f)`
— every `.png` name in the directory, in sorted order. -/
def pngListing (fs : FS) : List String :=
  ((fs.files.filter (endsWithStr ".png")).insertionSort strLe)

/-- The invocation context of the script. The `args`, `env` and `cwd`
fields model the command-line arguments, environment variables and working
directory of the process; the script reads none of them. `scriptAbs` is
`os.path.abspath(__file__)`, the script file's own absolute location. -/
structure Invocation where
  args : List String
  env : List (String × String)
  cwd : List String
  scriptAbs : List String

/-- The outcome of one run of the script's `__main__` block. -/
structure RunResult where
  fs : FS
  events : List Event
  printedFiles : List String
  exitCode : Nat
deriving DecidableEq, Repr

/-- The `__main__` block: ensure the output directory exists
(`os.makedirs(OUTPUT_DIR, exist_ok=True)`), then run the four diagram
builders in order, halting on the first failure; on success print the
sorted `.png` listing and exit 0, on an uncaught exception print no listing
and exit non-zero. -/
def mainRun (render : RenderOracle) (inv : Invocation) (fs0 : FS) : RunResult :=
  match runDiagrams render (makedirs true fs0).1 (diagramsInOrder inv.scriptAbs) with
  | (fs2, evs, .ok ()) =>
    { fs := fs2, events := .mkdirOutput :: evs,
      printedFiles := pngListing fs2, exitCode := 0 }
  | (fs2, evs, .error _) =>
    { fs := fs2, events := .mkdirOutput :: evs,
      printedFiles := [], exitCode := 1 }

/-- Modelled from the spec (refinement target, not code of the repository):
the public contract `generate_all_diagrams(output_directory) -> list of
generated file paths`, the four diagram files named after each diagram's
title inside the given directory. -/
def generate_all_diagrams (output_directory : List String) : List (List String) :=
  [ output_directory ++ ["mfe-architecture.png"],
    output_directory ++ ["deployment-architecture.png"],
    output_directory ++ ["component-architecture.png"],
    output_directory ++ ["data-flow.png"] ]

/-- The four generated file names, sorted as the confirmation prints them. -/
def sortedPngNames : List String :=
  [ "component-architecture.png", "data-flow.png",
    "deployment-architecture.png", "mfe-architecture.png" ]

/-- A concrete absolute script location, `/repo/scripts/create_diagrams.py`. -/
def scriptAbs₀ : List String := ["repo", "scripts", "create_diagrams.py"]

/-- A concrete invocation at that location with empty context. -/
def inv₀ : Invocation := ⟨[], [], [], scriptAbs₀⟩

/-- Number of nodes of a diagram satisfying a predicate. -/
def countNodes (d : DiagramSpec) (p : Node → Bool) : Nat :=
  (d.nodes.filter p).length

/-- Whether a diagram's edge list contains the given (source, target) pair. -/
def hasEdge (d : DiagramSpec) (e : String × String) : Bool :=
  d.edges.contains e

/-- `lexLe` decides the standard lexicographic strict order: `lexLe l m`
holds exactly when `m` is not `Lex (· < ·)`-below `l`. -/
theorem lexLe_eq_true_iff_not_lex :
    ∀ l m : List Char, lexLe l m = true ↔ ¬ List.Lex (· < ·) m l
  | [], m => by
    simp only [lexLe, true_iff]
    exact List.Lex.not_nil_right _ m
  | a :: as, [] => by
    simp only [lexLe, Bool.false_eq_true, false_iff, not_not]
    exact List.Lex.nil
  | a :: as, b :: bs => by
    rcases lt_trichotomy a b with hab | hab | hab
    · simp only [lexLe, if_pos hab, true_iff]
      intro h
      cases h with
      | cons h => exact lt_irrefl a hab
      | rel h => exact lt_asymm hab h
    · subst hab
      simp only [lexLe, if_neg (lt_irrefl a)]
      rw [lexLe_eq_true_iff_not_lex as bs]
      constructor
      · intro h hl
        cases hl with
        | cons h' => exact h h'
        | rel h' => exact lt_irrefl a h'
      · intro h h'
        exact h (List.Lex.cons h')
    · simp only [lexLe, if_neg (lt_asymm hab), if_pos hab, Bool.false_eq_true,
        false_iff, not_not]
      exact List.Lex.rel hab

/-- `strLe` coincides with the lexicographic linear order on strings. -/
theorem strLe_iff_le (a b : String) : strLe a b ↔ a ≤ b := by
  rw [strLe, lexLe_eq_true_iff_not_lex]
  constructor
  · intro h hba
    exact h (String.lt_iff_toList_lt.mp hba)
  · intro h hba
    exact h (String.lt_iff_toList_lt.mpr hba)

/-- `lexLe` is total. -/
theorem lexLe_total : ∀ l m : List Char, lexLe l m = true ∨ lexLe m l = true
  | [], _ => .inl rfl
  | _ :: _, [] => .inr rfl
  | a :: as, b :: bs => by
    rcases lt_trichotomy a b with hab | hab | hab
    · left
      simp [lexLe, hab]
    · subst hab
      simpa [lexLe] using lexLe_total as bs
    · right
      simp [lexLe, hab]

/-- `lexLe` is transitive. -/
theorem lexLe_trans :
    ∀ {l m n : List Char}, lexLe l m = true → lexLe m n = true → lexLe l n = true
  | [], _, _, _, _ => rfl
  | a :: as, [], n, h₁, _ => by simp [lexLe] at h₁
  | a :: as, b :: bs, [], _, h₂ => by simp [lexLe] at h₂
  | a :: as, b :: bs, c :: cs, h₁, h₂ => by
    rw [lexLe_eq_true_iff_not_lex] at h₁ h₂ ⊢
    intro h
    cases h with
    | cons h' =>
      rcases lt_trichotomy a b with hab | hab | hab
      · exact h₂ (List.Lex.rel hab)
      · subst hab
        have h₁' : ¬ List.Lex (· < ·) bs as := fun hl => h₁ (List.Lex.cons hl)
        have h₂' : ¬ List.Lex (· < ·) cs bs := fun hl => h₂ (List.Lex.cons hl)
        exact absurd h' ((lexLe_eq_true_iff_not_lex as cs).mp
          (lexLe_trans ((lexLe_eq_true_iff_not_lex as bs).mpr h₁')
            ((lexLe_eq_true_iff_not_lex bs cs).mpr h₂')))
      · exact h₁ (List.Lex.rel hab)
    | rel h' =>
      rcases lt_trichotomy a b with hab | hab | hab
      · exact h₂ (List.Lex.rel (lt_trans h' hab))
      · subst hab
        exact h₂ (List.Lex.rel h')
      · exact h₁ (List.Lex.rel hab)

/-- `lexLe` is antisymmetric. -/
theorem lexLe_antisymm :
    ∀ {l m : List Char}, lexLe l m = true → lexLe m l = true → l = m
  | [], [], _, _ => rfl
  | [], _ :: _, _, h₂ => by simp [lexLe] at h₂
  | _ :: _, [], h₁, _ => by simp [lexLe] at h₁
  | a :: as, b :: bs, h₁, h₂ => by
    rcases lt_trichotomy a b with hab | hab | hab
    · rw [lexLe_eq_true_iff_not_lex] at h₂
      exact absurd (List.Lex.rel hab) h₂
    · subst hab
      simp only [lexLe, if_neg (lt_irrefl a)] at h₁ h₂
      rw [lexLe_antisymm h₁ h₂]
    · rw [lexLe_eq_true_iff_not_lex] at h₁
      exact absurd (List.Lex.rel hab) h₁

instance : IsTotal String strLe :=
  ⟨fun a b => lexLe_total a.data b.data⟩

instance : IsTrans String strLe :=
  ⟨fun _ _ _ => lexLe_trans⟩

instance : IsAntisymm String strLe :=
  ⟨fun a b h₁ h₂ => by
    cases a
    cases b
    exact congrArg String.mk (lexLe_antisymm h₁ h₂)⟩

/-- `writeFile` never touches the directory-existence flag. -/
theorem writeFile_dirExists (fs : FS) (n : String) :
    (writeFile fs n).dirExists = fs.dirExists := by
  unfold writeFile
  split <;> rfl

/-- Membership in the directory after a write. -/
theorem mem_writeFile_files (fs : FS) (n x : String) :
    x ∈ (writeFile fs n).files ↔ x ∈ fs.files ∨ x = n := by
  unfold writeFile
  split
  · rename_i h
    have hn : n ∈ fs.files := List.elem_iff.mp h
    constructor
    · exact .inl
    · rintro (hx | rfl) <;> assumption
  · simp

/-- A write keeps the file list duplicate-free. -/
theorem nodup_writeFile_files (fs : FS) (n : String) (h : fs.files.Nodup) :
    (writeFile fs n).files.Nodup := by
  unfold writeFile
  split
  · exact h
  · rename_i hnc
    have hn : n ∉ fs.files := fun hm => hnc (List.elem_iff.mpr hm)
    simpa [List.nodup_append] using ⟨h, hn⟩

/-- A write to a name already present changes nothing. -/
theorem writeFile_eq_self (fs : FS) (n : String) (h : n ∈ fs.files) :
    writeFile fs n = fs := by
  unfold writeFile
  rw [if_pos (List.elem_iff.mpr h)]

/-- The trace of `runDiagrams` consists of render events only. -/
theorem runDiagrams_trace_isRender (render : RenderOracle) :
    ∀ (fs : FS) (ds : List DiagramSpec),
      ((runDiagrams render fs ds).2.1).all Event.isRender = true
  | _, [] => rfl
  | fs, d :: ds => by
    cases h : render d with
    | error e => simp [runDiagrams, h, Event.isRender]
    | ok u =>
      cases u
      simp [runDiagrams, h, Event.isRender,
        runDiagrams_trace_isRender render (writeFile fs (pngName d)) ds]

/-- `runDiagrams` never touches the directory-existence flag. -/
theorem runDiagrams_dirExists (render : RenderOracle) :
    ∀ (fs : FS) (ds : List DiagramSpec),
      (runDiagrams render fs ds).1.dirExists = fs.dirExists
  | _, [] => rfl
  | fs, d :: ds => by
    cases h : render d with
    | error e => simp [runDiagrams, h]
    | ok u =>
      cases u
      simp [runDiagrams, h,
        runDiagrams_dirExists render (writeFile fs (pngName d)) ds,
        writeFile_dirExists]

/-- Files present before `runDiagrams` are still present after it. -/
theorem runDiagrams_files_mono (render : RenderOracle) :
    ∀ (fs : FS) (ds : List DiagramSpec) (x : String), x ∈ fs.files →
      x ∈ (runDiagrams render fs ds).1.files
  | _, [], _, hx => hx
  | fs, d :: ds, x, hx => by
    cases h : render d with
    | error e => simpa [runDiagrams, h] using hx
    | ok u =>
      cases u
      simp only [runDiagrams, h]
      exact runDiagrams_files_mono render (writeFile fs (pngName d)) ds x
        ((mem_writeFile_files fs (pngName d) x).mpr (.inl hx))

/-- `runDiagrams` keeps the file list duplicate-free. -/
theorem runDiagrams_files_nodup (render : RenderOracle) :
    ∀ (fs : FS) (ds : List DiagramSpec), fs.files.Nodup →
      (runDiagrams render fs ds).1.files.Nodup
  | _, [], h => h
  | fs, d :: ds, hnd => by
    cases h : render d with
    | error e => simpa [runDiagrams, h] using hnd
    | ok u =>
      cases u
      simp only [runDiagrams, h]
      exact runDiagrams_files_nodup render (writeFile fs (pngName d)) ds
        (nodup_writeFile_files fs (pngName d) hnd)

/-- With an all-succeeding backend, the directory afterwards holds exactly
its previous files and the rendered diagrams' file names. -/
theorem mem_runDiagrams_ok_files :
    ∀ (fs : FS) (ds : List DiagramSpec) (x : String),
      x ∈ (runDiagrams okRender fs ds).1.files ↔
        x ∈ fs.files ∨ x ∈ ds.map pngName
  | _, [], x => by simp [runDiagrams]
  | fs, d :: ds, x => by
    simp only [runDiagrams, okRender]
    rw [mem_runDiagrams_ok_files (writeFile fs (pngName d)) ds x,
      mem_writeFile_files]
    simp only [List.map_cons, List.mem_cons]
    tauto

/-- With an all-succeeding backend, re-running over files that are all
already present changes nothing. -/
theorem runDiagrams_ok_stable :
    ∀ (fs : FS) (ds : List DiagramSpec),
      (∀ n ∈ ds.map pngName, n ∈ fs.files) →
      (runDiagrams okRender fs ds).1 = fs
  | _, [], _ => rfl
  | fs, d :: ds, h => by
    have hd : pngName d ∈ fs.files := h _ (by simp)
    simp only [runDiagrams, okRender, writeFile_eq_self fs (pngName d) hd]
    exact runDiagrams_ok_stable fs ds fun n hn => h n (by simp [hn])

/-- The events of a run: the directory creation followed by the render
trace, whether or not the run fails. -/
theorem mainRun_events (render : RenderOracle) (inv : Invocation) (fs : FS) :
    (mainRun render inv fs).events =
      .mkdirOutput ::
        (runDiagrams render (makedirs true fs).1 (diagramsInOrder inv.scriptAbs)).2.1 := by
  unfold mainRun
  split <;> rename_i heq <;> rw [heq]

/-- The directory state of a run is the one `runDiagrams` leaves. -/
theorem mainRun_fs (render : RenderOracle) (inv : Invocation) (fs : FS) :
    (mainRun render inv fs).fs =
      (runDiagrams render (makedirs true fs).1 (diagramsInOrder inv.scriptAbs)).1 := by
  unfold mainRun
  split <;> rename_i heq <;> rw [heq]

/-- A run exits 0 exactly when `runDiagrams` succeeded, and then prints the
listing. -/
theorem mainRun_exit_printed (render : RenderOracle) (inv : Invocation) (fs : FS) :
    ((mainRun render inv fs).exitCode = 0 ↔
      (runDiagrams render (makedirs true fs).1 (diagramsInOrder inv.scriptAbs)).2.2
        = .ok ()) ∧
    ((mainRun render inv fs).exitCode = 0 →
      (mainRun render inv fs).printedFiles = pngListing (mainRun render inv fs).fs) := by
  rw [mainRun_fs]
  unfold mainRun
  split <;> rename_i heq <;> rw [heq] <;> simp

/-- `makedirs` with `exist_ok=True` succeeds and just sets the flag. -/
theorem makedirs_existOk (fs : FS) :
    makedirs true fs = ({ fs with dirExists := true }, .ok ()) := by
  unfold makedirs
  split
  · rename_i h
    cases fs
    simp_all
  · rfl

/-- The name of each generated file and where it is written: the four
fixed names inside `OUTPUT_DIR`. -/
theorem generatedPaths_eq (scriptAbs : List String) :
    generatedPaths scriptAbs = generate_all_diagrams (outputDirOf scriptAbs) ∧
    (diagramsInOrder scriptAbs).map pngName =
      [ "mfe-architecture.png", "deployment-architecture.png",
        "component-architecture.png", "data-flow.png" ] := by
  constructor <;>
    simp [generatedPaths, generate_all_diagrams, diagramsInOrder, pngPath, pngName,
      create_mfe_architecture_diagram, create_deployment_architecture_diagram,
      create_component_architecture_diagram, create_data_flow_diagram]

/-- With an all-succeeding backend, `runDiagrams` never fails. -/
theorem runDiagrams_ok_outcome :
    ∀ (fs : FS) (ds : List DiagramSpec),
      (runDiagrams okRender fs ds).2.2 = .ok ()
  | _, [] => rfl
  | fs, d :: ds => by
    simp only [runDiagrams, okRender]
    exact runDiagrams_ok_outcome (writeFile fs (pngName d)) ds

/-- Setting the existence flag of a directory that already exists is the
identity. -/
theorem fs_set_dirExists (fs : FS) (h : fs.dirExists = true) :
    { fs with dirExists := true } = fs := by
  cases fs
  cases h
  rfl

/-- The listing is sorted in the comparator's order. -/
theorem pngListing_sorted (fs : FS) : List.Sorted strLe (pngListing fs) :=
  List.sorted_insertionSort strLe _

/-- A name appears in the listing exactly when it is a `.png` file of the
directory. -/
theorem mem_pngListing (fs : FS) (x : String) :
    x ∈ pngListing fs ↔ x ∈ fs.files ∧ endsWithStr ".png" x = true := by
  unfold pngListing
  rw [(List.perm_insertionSort strLe _).mem_iff, List.mem_filter]

/-- After a fully successful run, the directory holds exactly the previous
files and the four generated names. -/
theorem mem_mainRun_ok_files (inv : Invocation) (fs : FS) (x : String) :
    x ∈ (mainRun okRender inv fs).fs.files ↔
      x ∈ fs.files ∨
        x ∈ [ "mfe-architecture.png", "deployment-architecture.png",
              "component-architecture.png", "data-flow.png" ] := by
  rw [mainRun_fs, mem_runDiagrams_ok_files, (generatedPaths_eq inv.scriptAbs).2,
    makedirs_existOk]

/-- A fully successful run prints the listing of its final directory. -/
theorem mainRun_ok_printed (inv : Invocation) (fs : FS) :
    (mainRun okRender inv fs).printedFiles =
      pngListing (mainRun okRender inv fs).fs := by
  refine (mainRun_exit_printed okRender inv fs).2 ?_
  exact (mainRun_exit_printed okRender inv fs).1.mpr (runDiagrams_ok_outcome _ _)

/-- Claim C1: on a clean checkout (an empty output directory) a run with
output directory `docs/diagrams` produces exactly the four files
`mfe-architecture.png`, `deployment-architecture.png`,
`component-architecture.png`, `data-flow.png`, and the final confirmation
lists exactly these four names. -/
theorem clean_run_generates_exactly_four_diagrams :
    outputDirOf inv₀.scriptAbs = ["repo", "docs", "diagrams"] ∧
    (mainRun okRender inv₀ cleanFS).fs.files =
      [ "mfe-architecture.png", "deployment-architecture.png",
        "component-architecture.png", "data-flow.png" ] ∧
    (mainRun okRender inv₀ cleanFS).printedFiles = sortedPngNames ∧
    (mainRun okRender inv₀ cleanFS).exitCode = 0 := by
  refine ⟨rfl, by decide, by decide, rfl⟩

/-- Claim C2: the architecture diagram has exactly one end-users node, one
CDN node, one auth node, one container node and four sub-application (MFE)
nodes, and its edges connect the container node to all four MFEs. -/
theorem architecture_diagram_counts (s : List String) :
    countNodes (create_mfe_architecture_diagram s) (fun n => n.icon == .users) = 1 ∧
    countNodes (create_mfe_architecture_diagram s) (fun n => n.icon == .cloudFront) = 1 ∧
    countNodes (create_mfe_architecture_diagram s) (fun n => n.icon == .cognito) = 1 ∧
    countNodes (create_mfe_architecture_diagram s)
      (fun n => n.cluster.contains "Container Application") = 1 ∧
    countNodes (create_mfe_architecture_diagram s)
      (fun n => n.cluster.contains "Micro Frontends") = 4 ∧
    hasEdge (create_mfe_architecture_diagram s)
      ("Container\n(Port 4000)\n- Header/Navbar\n- Auth Context\n- Router",
        "Home MFE\n(Port 3001)") = true ∧
    hasEdge (create_mfe_architecture_diagram s)
      ("Container\n(Port 4000)\n- Header/Navbar\n- Auth Context\n- Router",
        "Preferences MFE\n(Port 3002)") = true ∧
    hasEdge (create_mfe_architecture_diagram s)
      ("Container\n(Port 4000)\n- Header/Navbar\n- Auth Context\n- Router",
        "Account MFE\n(Port 3003)") = true ∧
    hasEdge (create_mfe_architecture_diagram s)
      ("Container\n(Port 4000)\n- Header/Navbar\n- Auth Context\n- Router",
        "Admin MFE\n(Port 3004)") = true :=
  ⟨rfl, rfl, rfl, rfl, rfl, rfl, rfl, rfl, rfl⟩

/-- Claim C3 (counterexample): the data-flow diagram has the directed edge
auth-context → auth-service but not the reverse edge, so the claimed
bidirectional pair auth-context ↔ auth-service does not exist. -/
theorem data_flow_auth_edge_not_bidirectional :
    hasEdge (create_data_flow_diagram scriptAbs₀) ("AuthContext", "AWS Cognito") = true ∧
    hasEdge (create_data_flow_diagram scriptAbs₀) ("AWS Cognito", "AuthContext") = false :=
  ⟨rfl, rfl⟩

/-- Claim C3 (amended): the edge set of the data-flow diagram is exactly
browser→router, router→sub-applications, auth-context→auth-service (one
direction only), sub-applications→event-bus, event-bus→auth-context. -/
theorem data_flow_edge_set (s : List String) :
    (create_data_flow_diagram s).edges =
      [ ("Browser", "React Router"),
        ("React Router", "MFEs\n(Home, Account,\nPreferences, Admin)"),
        ("AuthContext", "AWS Cognito"),
        ("MFEs\n(Home, Account,\nPreferences, Admin)", "EventBus"),
        ("EventBus", "AuthContext") ] :=
  rfl

/-- Claim C4 (counterexample): the requested output directory is not an
input of the program: supplying `custom` through every available channel
(argv, environment, working directory) changes nothing, and the generated
paths are not `generate_all_diagrams` of that requested directory. -/
theorem requested_directory_ignored :
    mainRun okRender
        ⟨["custom"], [("OUTPUT_DIR", "custom")], ["custom"], scriptAbs₀⟩ cleanFS
      = mainRun okRender inv₀ cleanFS ∧
    generatedPaths scriptAbs₀ ≠ generate_all_diagrams ["custom"] :=
  ⟨rfl, by decide⟩

/-- Claim C4 (amended): the run is decomposed into four sub-operations,
none of which takes a directory parameter; each writes into the fixed
module-level `OUTPUT_DIR`, and the set of generated file paths equals the
spec's `generate_all_diagrams` applied to that fixed directory. -/
theorem generate_all_diagrams_fixed_directory (s : List String) :
    generatedPaths s = generate_all_diagrams (outputDirOf s) ∧
    (diagramsInOrder s).length = 4 :=
  ⟨(generatedPaths_eq s).1, rfl⟩

/-- Claim C10: the output directory is taken from no argument, environment
variable or working directory: a run only depends on the script file's own
absolute location, and the directory is
`<parent of script directory>/docs/diagrams`. -/
theorem output_directory_from_script_location_only
    (render : RenderOracle) (inv : Invocation) (fs : FS) :
    mainRun render inv fs = mainRun render ⟨[], [], [], inv.scriptAbs⟩ fs ∧
    outputDirOf inv.scriptAbs =
      inv.scriptAbs.dropLast.dropLast ++ ["docs", "diagrams"] ∧
    generatedPaths inv.scriptAbs = generate_all_diagrams (outputDirOf inv.scriptAbs) :=
  ⟨rfl, rfl, (generatedPaths_eq inv.scriptAbs).1⟩

/-- Claim C8: the deployment diagram has one browser node, one CDN node,
one authentication node, and one storage-bucket node; the folder cluster
nested inside the bucket's cluster holds exactly the five folders
`container/`, `home/`, `preferences/`, `account/`, `admin/`; the edges are
exactly browser→CDN, CDN→storage, browser→authentication. -/
theorem deployment_diagram_topology (s : List String) :
    countNodes (create_deployment_architecture_diagram s)
      (fun n => n.icon == .client) = 1 ∧
    countNodes (create_deployment_architecture_diagram s)
      (fun n => n.icon == .cloudFront) = 1 ∧
    countNodes (create_deployment_architecture_diagram s)
      (fun n => n.icon == .cognito) = 1 ∧
    ((create_deployment_architecture_diagram s).nodes.filter
        (fun n => n.label == "S3 Bucket")).map Node.cluster =
      [["AWS Cloud", "Static Hosting"]] ∧
    ((create_deployment_architecture_diagram s).nodes.filter
        (fun n => n.cluster ==
          ["AWS Cloud", "Static Hosting", "Application Folders"])).map Node.label =
      ["container/", "home/", "preferences/", "account/", "admin/"] ∧
    (create_deployment_architecture_diagram s).edges =
      [ ("Browser", "CloudFront\nCDN"),
        ("CloudFront\nCDN", "S3 Bucket"),
        ("Browser", "Cognito\nUser Pool") ] :=
  ⟨rfl, rfl, rfl, rfl, rfl, rfl⟩

/-- The architecture diagram's title. -/
theorem arch_title (s : List String) :
    (create_mfe_architecture_diagram s).title = "MFE Demo Architecture" := rfl

/-- The deployment diagram's title. -/
theorem deploy_title (s : List String) :
    (create_deployment_architecture_diagram s).title = "AWS Deployment Architecture" := rfl

/-- The component diagram's title. -/
theorem comp_title (s : List String) :
    (create_component_architecture_diagram s).title
      = "Container Application Components" := rfl

/-- The data-flow diagram's title. -/
theorem df_title (s : List String) :
    (create_data_flow_diagram s).title = "MFE Data Flow" := rfl

/-- Claim C5: the run attempts the four builds sequentially in the fixed
order architecture, deployment, component, data flow; when every render
succeeds all four run and the exit code is 0, and an error raised by any
build aborts the run before the later builds execute, with a non-zero
exit. -/
theorem main_sequential_halts_on_first_failure
    (render : RenderOracle) (inv : Invocation) (fs : FS) :
    ((∀ d ∈ diagramsInOrder inv.scriptAbs, render d = .ok ()) →
      (mainRun render inv fs).events =
        [ .mkdirOutput, .render "MFE Demo Architecture",
          .render "AWS Deployment Architecture",
          .render "Container Application Components", .render "MFE Data Flow" ] ∧
      (mainRun render inv fs).exitCode = 0) ∧
    (∀ e, render (create_mfe_architecture_diagram inv.scriptAbs) = .error e →
      (mainRun render inv fs).events =
        [.mkdirOutput, .render "MFE Demo Architecture"] ∧
      (mainRun render inv fs).exitCode = 1) ∧
    (∀ e, render (create_mfe_architecture_diagram inv.scriptAbs) = .ok () →
      render (create_deployment_architecture_diagram inv.scriptAbs) = .error e →
      (mainRun render inv fs).events =
        [ .mkdirOutput, .render "MFE Demo Architecture",
          .render "AWS Deployment Architecture" ] ∧
      (mainRun render inv fs).exitCode = 1) ∧
    (∀ e, render (create_mfe_architecture_diagram inv.scriptAbs) = .ok () →
      render (create_deployment_architecture_diagram inv.scriptAbs) = .ok () →
      render (create_component_architecture_diagram inv.scriptAbs) = .error e →
      (mainRun render inv fs).events =
        [ .mkdirOutput, .render "MFE Demo Architecture",
          .render "AWS Deployment Architecture",
          .render "Container Application Components" ] ∧
      (mainRun render inv fs).exitCode = 1) ∧
    (∀ e, render (create_mfe_architecture_diagram inv.scriptAbs) = .ok () →
      render (create_deployment_architecture_diagram inv.scriptAbs) = .ok () →
      render (create_component_architecture_diagram inv.scriptAbs) = .ok () →
      render (create_data_flow_diagram inv.scriptAbs) = .error e →
      (mainRun render inv fs).events =
        [ .mkdirOutput, .render "MFE Demo Architecture",
          .render "AWS Deployment Architecture",
          .render "Container Application Components", .render "MFE Data Flow" ] ∧
      (mainRun render inv fs).exitCode = 1) := by
  refine ⟨?_, ?_, ?_, ?_, ?_⟩
  · intro h
    have h1 := h (create_mfe_architecture_diagram inv.scriptAbs)
      (by simp [diagramsInOrder])
    have h2 := h (create_deployment_architecture_diagram inv.scriptAbs)
      (by simp [diagramsInOrder])
    have h3 := h (create_component_architecture_diagram inv.scriptAbs)
      (by simp [diagramsInOrder])
    have h4 := h (create_data_flow_diagram inv.scriptAbs)
      (by simp [diagramsInOrder])
    constructor <;>
      simp [mainRun, diagramsInOrder, runDiagrams, h1, h2, h3, h4,
        arch_title, deploy_title, comp_title, df_title]
  · intro e h1
    constructor <;>
      simp [mainRun, diagramsInOrder, runDiagrams, h1, arch_title]
  · intro e h1 h2
    constructor <;>
      simp [mainRun, diagramsInOrder, runDiagrams, h1, h2, arch_title, deploy_title]
  · intro e h1 h2 h3
    constructor <;>
      simp [mainRun, diagramsInOrder, runDiagrams, h1, h2, h3,
        arch_title, deploy_title, comp_title]
  · intro e h1 h2 h3 h4
    constructor <;>
      simp [mainRun, diagramsInOrder, runDiagrams, h1, h2, h3, h4,
        arch_title, deploy_title, comp_title, df_title]

/-- Claim C5 witness: with a backend that raises while rendering the
deployment diagram, only the first two builds are attempted and the run
exits non-zero. -/
theorem main_halts_witness :
    (mainRun failDeployRender inv₀ cleanFS).events =
      [ .mkdirOutput, .render "MFE Demo Architecture",
        .render "AWS Deployment Architecture" ] ∧
    (mainRun failDeployRender inv₀ cleanFS).exitCode = 1 :=
  (main_sequential_halts_on_first_failure failDeployRender inv₀ cleanFS).2.2.1
    "graphviz missing" (by rfl) (by rfl)

/-- Claim C6: the output directory is created (with `exist_ok=True`, so an
existing directory raises no error) before any diagram is rendered, and
after the run the directory exists. -/
theorem output_directory_created_before_renders
    (render : RenderOracle) (inv : Invocation) (fs : FS) :
    makedirs true fs = ({ fs with dirExists := true }, .ok ()) ∧
    (mainRun render inv fs).events.head? = some .mkdirOutput ∧
    ((mainRun render inv fs).events.tail.all Event.isRender) = true ∧
    (mainRun render inv fs).fs.dirExists = true := by
  refine ⟨makedirs_existOk fs, ?_, ?_, ?_⟩
  · rw [mainRun_events]
    rfl
  · rw [mainRun_events]
    exact runDiagrams_trace_isRender render _ _
  · rw [mainRun_fs, runDiagrams_dirExists, makedirs_existOk]

/-- Claim C7: a second full generation against the directory the first one
left behind changes nothing, and the set of names each run produces is the
same fixed four-name constant, independent of prior directory state. -/
theorem full_generation_idempotent (inv : Invocation) (fs : FS) :
    (mainRun okRender inv (mainRun okRender inv fs).fs).fs
      = (mainRun okRender inv fs).fs ∧
    (diagramsInOrder inv.scriptAbs).map pngName =
      [ "mfe-architecture.png", "deployment-architecture.png",
        "component-architecture.png", "data-flow.png" ] := by
  refine ⟨?_, (generatedPaths_eq inv.scriptAbs).2⟩
  have hdir : (mainRun okRender inv fs).fs.dirExists = true := by
    rw [mainRun_fs, runDiagrams_dirExists, makedirs_existOk]
  rw [mainRun_fs okRender inv (mainRun okRender inv fs).fs, makedirs_existOk,
    fs_set_dirExists _ hdir]
  apply runDiagrams_ok_stable
  intro n hn
  rw [(generatedPaths_eq inv.scriptAbs).2] at hn
  exact (mem_mainRun_ok_files inv fs n).mpr (.inr hn)

/-- Claim C9: the confirmation of a successful run lists, in sorted
(lexicographic) order, every `.png` name in the output directory —
including `.png` files that were already present — and it equals the four
generated names exactly when the directory held no other `.png` file. -/
theorem confirmation_lists_all_pngs_sorted (inv : Invocation) (fs : FS)
    (hnd : fs.files.Nodup) :
    List.Sorted (· ≤ ·) (mainRun okRender inv fs).printedFiles ∧
    List.Sorted strLe (mainRun okRender inv fs).printedFiles ∧
    (∀ x, x ∈ (mainRun okRender inv fs).printedFiles ↔
      x ∈ (mainRun okRender inv fs).fs.files ∧ endsWithStr ".png" x = true) ∧
    (∀ x ∈ fs.files, endsWithStr ".png" x = true →
      x ∈ (mainRun okRender inv fs).printedFiles) ∧
    ((mainRun okRender inv fs).printedFiles = sortedPngNames ↔
      ∀ x ∈ fs.files, endsWithStr ".png" x = true →
        x ∈ [ "mfe-architecture.png", "deployment-architecture.png",
              "component-architecture.png", "data-flow.png" ]) := by
  have hp := mainRun_ok_printed inv fs
  have hndF : (mainRun okRender inv fs).fs.files.Nodup := by
    rw [mainRun_fs]
    apply runDiagrams_files_nodup
    rw [makedirs_existOk]
    exact hnd
  refine ⟨?_, ?_, ?_, ?_, ?_⟩
  · rw [hp]
    exact (pngListing_sorted _).imp fun h => (strLe_iff_le _ _).mp h
  · rw [hp]
    exact pngListing_sorted _
  · intro x
    rw [hp, mem_pngListing]
  · intro x hx hpng
    rw [hp, mem_pngListing]
    exact ⟨(mem_mainRun_ok_files inv fs x).mpr (.inl hx), hpng⟩
  · constructor
    · intro heq x hx hpng
      have hm : x ∈ (mainRun okRender inv fs).printedFiles := by
        rw [hp, mem_pngListing]
        exact ⟨(mem_mainRun_ok_files inv fs x).mpr (.inl hx), hpng⟩
      rw [heq] at hm
      simp only [sortedPngNames, List.mem_cons, List.not_mem_nil, or_false] at hm
      simp only [List.mem_cons, List.not_mem_nil, or_false]
      tauto
    · intro hsub
      rw [hp]
      unfold pngListing
      have hfperm :
          List.Perm
            ((mainRun okRender inv fs).fs.files.filter (endsWithStr ".png"))
            [ "mfe-architecture.png", "deployment-architecture.png",
              "component-architecture.png", "data-flow.png" ] := by
        rw [List.perm_ext_iff_of_nodup (hndF.filter _) (by decide)]
        intro a
        rw [List.mem_filter, mem_mainRun_ok_files]
        constructor
        · rintro ⟨ha | ha, hpng⟩
          · exact hsub a ha hpng
          · exact ha
        · intro ha
          refine ⟨.inr ha, ?_⟩
          simp only [List.mem_cons, List.not_mem_nil, or_false] at ha
          rcases ha with rfl | rfl | rfl | rfl <;> decide
      exact List.eq_of_perm_of_sorted
        ((List.perm_insertionSort strLe _).trans
          (hfperm.trans (List.isPerm_iff.mp (by decide))))
        (List.sorted_insertionSort strLe _) (by decide)

/-- Claim C9 witness: with one stray `.png` and one non-image file already
present, every pre-existing `.png` name appears in the confirmation. -/
theorem confirmation_lists_witness :
    "legacy.png" ∈
      (mainRun okRender inv₀ ⟨true, ["legacy.png", "notes.txt"]⟩).printedFiles :=
  (confirmation_lists_all_pngs_sorted inv₀
    ⟨true, ["legacy.png", "notes.txt"]⟩ (by decide)).2.2.2.1
    "legacy.png" (by decide) (by decide)

end MfeDiagrams
